import Mathlib

/-!
Verification of the pipeline orchestration script `scripts/run_pipeline.py`
(class `MDPipelineOrchestrator`).

The script drives Spark jobs on a cluster purely through shell invocations of
the `oc` CLI. We embed it shallowly: every external `oc` invocation is an
oracle value (`KubeOutcome`) saying whether the subprocess call succeeded
(with the captured, stripped stdout) or raised `CalledProcessError`; the
polling loop of `wait_for_spark_job` is a function over a finite trace of
(elapsed-seconds, status-query outcome) pairs; the stage functions and the
pipeline sequencer return their boolean result together with the list of
externally visible actions (resource deletions, manifest applications, waits)
they perform, in order.  Logging is modelled as an explicit list of
(level, message) pairs where a claim depends on it.  Sleeps and wall-clock
formatting do not affect any return value and are not modelled.
-/

/-- Log severity levels of the logger of the script. -/
inductive LogLevel
  | debug
  | info
  | warning
  | error
  deriving DecidableEq

/-- Outcome of a single external `oc` subprocess invocation: either success
with the raw captured stdout, or a `CalledProcessError` carrying an optional
stderr text. -/
inductive KubeOutcome
  | ok (stdout : String)
  | err (stderr : Option String)
  deriving DecidableEq

/-- A log transcript: the sequence of (level, message) lines emitted. -/
abbrev Log := List (LogLevel × String)

/-- Model of the Python method `str.strip()` with no argument: remove leading
and trailing whitespace.  Defined by structural recursion over the character
list so that it evaluates inside the kernel. -/
def pyStrip (s : String) : String :=
  String.mk (((s.data.dropWhile Char.isWhitespace).reverse.dropWhile
    Char.isWhitespace).reverse)

/-- Helper for `pySplitLines`: split a character list at each newline. -/
def splitLinesAux : List Char → List Char → List String
  | [], acc => [String.mk acc.reverse]
  | c :: cs, acc =>
      if c = '\n' then String.mk acc.reverse :: splitLinesAux cs []
      else splitLinesAux cs (c :: acc)

/-- Model of the Python call `str.split` with separator newline: like Python,
an empty string yields one empty field, and a trailing newline yields a final
empty field. -/
def pySplitLines (s : String) : List String := splitLinesAux s.data []

/-- Embedding of `MDPipelineOrchestrator.run_kubectl` (lines 28-40).
Given the argument list, the `capture_output` flag and the outcome of the
subprocess call, it returns the value the Python function produces
(`result.stdout.strip()` when capturing, `None` otherwise) or an exception
(`Except.error`), together with the log lines it emits.  On failure it logs
the failure at error level, logs stderr at error level when output was
captured and stderr is non-empty, and re-raises. -/
def run_kubectl (args : List String) (capture_output : Bool) (outcome : KubeOutcome) :
    Except Unit (Option String) × Log :=
  let cmdLine : LogLevel × String :=
    (LogLevel.debug, "Running: " ++ String.intercalate " " ("oc" :: args))
  match outcome with
  | KubeOutcome.ok stdout =>
      (Except.ok (if capture_output then some (pyStrip stdout) else none), [cmdLine])
  | KubeOutcome.err stderr =>
      let stderrLines : Log :=
        match capture_output, stderr with
        | true, some s => [(LogLevel.error, "stderr: " ++ s)]
        | _, _ => []
      (Except.error (), cmdLine :: (LogLevel.error, "oc command failed") :: stderrLines)

/-- Embedding of `delete_spark_job` (lines 123-130): runs
`oc delete sparkapplication <name> -n <ns>`; on success logs the deletion at
info level (and sleeps, not modelled), on `CalledProcessError` catches it and
logs, at info level, that the job was not found.  The `Except` in the result
type records whether an exception escapes to the caller. -/
def delete_spark_job (job_name ns : String) (outcome : KubeOutcome) :
    Except Unit Log :=
  match run_kubectl ["delete", "sparkapplication", job_name, "-n", ns] true outcome with
  | (Except.ok _, log) =>
      Except.ok (log ++ [(LogLevel.info, "Deleted existing job " ++ job_name)])
  | (Except.error _, log) =>
      Except.ok (log ++ [(LogLevel.info, "Job " ++ job_name ++ " not found (this is okay)")])

/-- Does a transcript contain a line at error level? -/
def logHasError : Log → Bool
  | [] => false
  | (lvl, _) :: rest => if lvl = LogLevel.error then true else logHasError rest

/-- Embedding of `get_executor_count` (lines 107-116): lists executor pods
with `--no-headers`; on success returns the number of lines of the (stripped)
output whose own strip is non-empty, with an empty result counting as 0; on
`CalledProcessError` returns 0. -/
def get_executor_count (job_name ns : String) (outcome : KubeOutcome) : Nat :=
  match run_kubectl
      ["get", "pods", "-l",
       "spark-app-name=" ++ job_name ++ ",spark-role=executor",
       "-n", ns, "--no-headers"] true outcome with
  | (Except.ok (some result), _) =>
      if result = "" then 0
      else ((pySplitLines result).filter (fun line => decide (¬ pyStrip line = ""))).length
  | (Except.ok none, _) => 0
  | (Except.error _, _) => 0

/-- Embedding of `show_job_logs` (lines 86-105): best-effort fetch of driver
then executor log tails (`capture_output=False`), each wrapped in its own
try/except that turns a `CalledProcessError` into a warning line.  The
`Except` result records whether an exception escapes the function. -/
def show_job_logs (job_name ns : String) (tail_lines : Nat)
    (driver executor : KubeOutcome) : Except Unit Log :=
  let driverLog : Log :=
    match run_kubectl
        ["logs", "-l", "spark-app-name=" ++ job_name ++ ",spark-role=driver",
         "-n", ns, "--tail", toString tail_lines] false driver with
    | (Except.ok _, log) => log
    | (Except.error _, log) => log ++ [(LogLevel.warning, "Could not retrieve driver logs")]
  let executorLog : Log :=
    match run_kubectl
        ["logs", "-l", "spark-app-name=" ++ job_name ++ ",spark-role=executor",
         "-n", ns, "--tail", "20"] false executor with
    | (Except.ok _, log) => log
    | (Except.error _, log) => log ++ [(LogLevel.warning, "Could not retrieve executor logs")]
  Except.ok
    ((LogLevel.info, "Recent logs for job " ++ job_name) :: driverLog ++
     (LogLevel.info, "Recent executor logs:") :: executorLog)

/-- Embedding of the failure-status membership test of line 75:
`status in ["FAILED", "CANCELLED", "ERROR"]`. -/
def isFailureStatus (s : String) : Bool :=
  s = "FAILED" || s = "CANCELLED" || s = "ERROR"

/-- One observation of the polling loop of `wait_for_spark_job`: either the
stripped status string returned by the jsonpath query, or a
`CalledProcessError` from the query. -/
abbrev StatusObs := Except Unit String

/-- Embedding of the loop of `wait_for_spark_job` (lines 42-84) over a finite
trace of loop iterations.  Each trace element carries the elapsed time in
seconds measured at the top of the iteration and the outcome of that
status query of that iteration.  Per iteration the code first returns `False` when
`elapsed > timeout_minutes * 60`; otherwise a query error is caught, logged as
a warning and retried after a sleep; otherwise status `COMPLETED` returns
`True`, a status in the failure set dumps logs and returns `False`, and any
other status sleeps and polls again.  `none` means the finite trace was
exhausted while the loop was still polling (in the real program time diverges,
so the loop never runs out of iterations). -/
def wait_for_spark_job (timeout_minutes : Nat) : List (Nat × StatusObs) → Option Bool
  | [] => none
  | (elapsed, obs) :: rest =>
      if elapsed > timeout_minutes * 60 then some false
      else
        match obs with
        | Except.error _ => wait_for_spark_job timeout_minutes rest
        | Except.ok status =>
            if status = "COMPLETED" then some true
            else if isFailureStatus status then some false
            else wait_for_spark_job timeout_minutes rest

/-- An observation is non-terminal when it does not decide the loop: a failed
status query, or a status that is neither `COMPLETED` nor in the failure set. -/
def nonTerminalObs : StatusObs → Bool
  | Except.error _ => true
  | Except.ok status => !(status = "COMPLETED") && !isFailureStatus status

/-- Externally visible actions performed by the stage functions, the resource
check and the pipeline sequencer, in program order. -/
inductive OrchAction
  | deleteJob (job_name : String)
  | applyManifest (manifest_path : String)
  | waitJob (job_name : String) (timeout_minutes : Nat)
  | monitorExecutors (job_name : String)
  | fetchDriverLogs (job_name : String)
  | getNodes
  | topNodes
  | validateQueries
  deriving DecidableEq

/-- Oracle for one pipeline run: the boolean that the `wait_for_spark_job` call of each stage (resp. `validate_pipeline`) eventually produces.
These are the only external inputs that determine the control flow of
`run_full_pipeline` and `main`. -/
structure PipelineEnv where
  smokeResult : Bool
  bronzeResult : Bool
  silverResult : Bool
  goldResult : Bool
  validateResult : Bool
  deriving DecidableEq

/-- Where the two calls inside `check_cluster_resources` can fail: both
succeed, the node listing fails (skipping the `top` call), or the `top` call
fails.  Either failure is caught and logged as a warning. -/
inductive CheckOutcome
  | ok
  | failNodes
  | failTop
  deriving DecidableEq

/-- Embedding of `check_cluster_resources` (lines 286-301): runs
`oc get nodes -o wide` then `oc top nodes`; a `CalledProcessError` from either
is caught and logged as a warning, so the function always returns normally.
The result is the list of external actions actually attempted. -/
def check_cluster_resources : CheckOutcome → List OrchAction
  | CheckOutcome.ok => [OrchAction.getNodes, OrchAction.topNodes]
  | CheckOutcome.failNodes => [OrchAction.getNodes]
  | CheckOutcome.failTop => [OrchAction.getNodes, OrchAction.topNodes]

/-- Embedding of `run_smoke_test` (lines 132-144): delete, apply, wait with a
10 minute timeout; the stage result is the wait result. -/
def run_smoke_test (env : PipelineEnv) : Bool × List OrchAction :=
  (env.smokeResult,
   [OrchAction.deleteJob "mdp-smoke",
    OrchAction.applyManifest "k8s/spark/49-smoke.yaml",
    OrchAction.waitJob "mdp-smoke" 10])

/-- Embedding of `run_bronze_ingest` (lines 146-191): delete, apply, monitor
executor scale-up for up to 10 minutes (result-irrelevant), then wait with a
180 minute timeout; on success additionally fetch driver logs for performance
metrics (its own failure is caught); the stage result is the wait result. -/
def run_bronze_ingest (env : PipelineEnv) : Bool × List OrchAction :=
  let base : List OrchAction :=
    [OrchAction.deleteJob "mdp-bronze-ingest",
     OrchAction.applyManifest "k8s/spark/42-bronze-ingest.yaml",
     OrchAction.monitorExecutors "mdp-bronze-ingest",
     OrchAction.waitJob "mdp-bronze-ingest" 180]
  if env.bronzeResult then (true, base ++ [OrchAction.fetchDriverLogs "mdp-bronze-ingest"])
  else (false, base)

/-- Embedding of `run_silver_build` (lines 193-205): delete, apply, wait with
a 60 minute timeout; the stage result is the wait result. -/
def run_silver_build (env : PipelineEnv) : Bool × List OrchAction :=
  (env.silverResult,
   [OrchAction.deleteJob "mdp-silver-build",
    OrchAction.applyManifest "k8s/spark/43-silver-build.yaml",
    OrchAction.waitJob "mdp-silver-build" 60])

/-- Embedding of `run_gold_finalize` (lines 207-219): delete, apply, wait with
a 30 minute timeout; the stage result is the wait result. -/
def run_gold_finalize (env : PipelineEnv) : Bool × List OrchAction :=
  (env.goldResult,
   [OrchAction.deleteJob "mdp-gold-finalize",
    OrchAction.applyManifest "k8s/spark/44-gold-finalize.yaml",
    OrchAction.waitJob "mdp-gold-finalize" 30])

/-- Embedding of `validate_pipeline` (lines 221-284): locates the Trino pod
and runs advisory queries; its boolean result (an oracle here) is `True` when
the pod lookup and the connectivity query succeed — per-table query failures
are caught and logged as warnings — and `False` when the pod cannot be found
or an uncaught `CalledProcessError` escapes to the outer handler. -/
def validate_pipeline (env : PipelineEnv) : Bool × List OrchAction :=
  (env.validateResult, [OrchAction.validateQueries])

/-- Embedding of `run_full_pipeline` (lines 303-362): resource check, then
smoke, bronze, silver, gold in order, returning `False` at the first stage
whose result is `False`; then validation, whose result is only logged (a
warning on failure) and never changes the `True` returned after all four
processing stages succeed. -/
def run_full_pipeline (co : CheckOutcome) (env : PipelineEnv) : Bool × List OrchAction :=
  let c := check_cluster_resources co
  let smoke := run_smoke_test env
  if !smoke.1 then (false, c ++ smoke.2)
  else
    let bronze := run_bronze_ingest env
    if !bronze.1 then (false, c ++ smoke.2 ++ bronze.2)
    else
      let silver := run_silver_build env
      if !silver.1 then (false, c ++ smoke.2 ++ bronze.2 ++ silver.2)
      else
        let gold := run_gold_finalize env
        if !gold.1 then (false, c ++ smoke.2 ++ bronze.2 ++ silver.2 ++ gold.2)
        else
          let validation := validate_pipeline env
          (true, c ++ smoke.2 ++ bronze.2 ++ silver.2 ++ gold.2 ++ validation.2)

/-- The `--stage` choices of the argument parser (line 371). -/
inductive Stage
  | smoke
  | bronze
  | silver
  | gold
  | validate
  | full
  deriving DecidableEq

/-- Embedding of the stage dispatch of `main` (lines 389-400). -/
def runStage : Stage → CheckOutcome → PipelineEnv → Bool × List OrchAction
  | Stage.smoke, _, env => run_smoke_test env
  | Stage.bronze, _, env => run_bronze_ingest env
  | Stage.silver, _, env => run_silver_build env
  | Stage.gold, _, env => run_gold_finalize env
  | Stage.validate, _, env => validate_pipeline env
  | Stage.full, co, env => run_full_pipeline co env

/-- How the try block of `main` (lines 388-409) ends: the selected stage
function returns, or the run is cut short by `KeyboardInterrupt` or by an
unexpected exception. -/
inductive RunInterruption
  | completed
  | keyboardInterrupt
  | unexpectedError
  deriving DecidableEq

/-- Embedding of the process exit code produced by `main` (lines 382-411):
0 immediately when `--check-resources` was given (plain `return` from `main`),
otherwise 1 on `KeyboardInterrupt` or an unexpected exception
(`sys.exit(1)`), otherwise `sys.exit(0 if success else 1)` on the result of
the selected stage function. -/
def mainExitCode (check_resources : Bool) (intr : RunInterruption)
    (stageResult : Bool) : Nat :=
  if check_resources then 0
  else
    match intr with
    | RunInterruption.keyboardInterrupt => 1
    | RunInterruption.unexpectedError => 1
    | RunInterruption.completed => if stageResult then 0 else 1

/-- Embedding of an uninterrupted execution of `main` (lines 375-411):
with `--check-resources` it runs only `check_cluster_resources` and returns
(process exit code 0); otherwise it dispatches on `--stage` and exits with 0
exactly when the stage function returned `True`.  The second component is the
trace of external actions performed. -/
def mainRun (stage : Stage) (check_resources : Bool) (co : CheckOutcome)
    (env : PipelineEnv) : Nat × List OrchAction :=
  if check_resources then (0, check_cluster_resources co)
  else
    let r := runStage stage co env
    (if r.1 then 0 else 1, r.2)

/-- Does the action list contain any job deletion or manifest application? -/
def touchesJobResources : List OrchAction → Bool
  | [] => false
  | OrchAction.deleteJob _ :: _ => true
  | OrchAction.applyManifest _ :: _ => true
  | _ :: rest => touchesJobResources rest

/-- Is a given manifest path applied somewhere in the action list? -/
def appliesManifest (path : String) : List OrchAction → Bool
  | [] => false
  | OrchAction.applyManifest p :: rest => if p = path then true else appliesManifest path rest
  | _ :: rest => appliesManifest path rest

/-- C1: for every stage timeout, over any finite trace of polling iterations
in which every status observation is non-terminal (a failed query, or a status
that is neither COMPLETED nor in the failure set), `wait_for_spark_job` never
returns `True`; and as soon as the trace contains an iteration whose elapsed
time exceeds `timeout_minutes * 60` seconds, it returns `False`. -/
theorem wait_for_spark_job_timeout_returns_false (t : Nat) :
    ∀ trace : List (Nat × StatusObs),
      (∀ p ∈ trace, nonTerminalObs p.2 = true) →
      (wait_for_spark_job t trace = none ∨ wait_for_spark_job t trace = some false) ∧
        ((∃ p ∈ trace, p.1 > t * 60) → wait_for_spark_job t trace = some false) := by
  intro trace
  induction trace with
  | nil =>
      intro _
      refine ⟨Or.inl rfl, ?_⟩
      rintro ⟨p, hp, -⟩
      exact absurd hp (List.not_mem_nil p)
  | cons hd tl ih =>
      intro hnt
      obtain ⟨e, obs⟩ := hd
      have hhd : nonTerminalObs obs = true := hnt (e, obs) (List.mem_cons_self _ _)
      have htl := ih (fun p hp => hnt p (List.mem_cons_of_mem _ hp))
      by_cases he : e > t * 60
      · have hres : wait_for_spark_job t ((e, obs) :: tl) = some false := by
          simp [wait_for_spark_job, he]
        exact ⟨Or.inr hres, fun _ => hres⟩
      · have hres : wait_for_spark_job t ((e, obs) :: tl) = wait_for_spark_job t tl := by
          cases obs with
          | error u => simp [wait_for_spark_job, he]
          | ok s =>
              have hs : ¬(s = "COMPLETED") ∧ isFailureStatus s = false := by
                simpa [nonTerminalObs] using hhd
              simp [wait_for_spark_job, he, hs.1, hs.2]
        rw [hres]
        refine ⟨htl.1, ?_⟩
        rintro ⟨p, hp, hgt⟩
        rcases List.mem_cons.mp hp with hph | hptl
      
        · subst hph
          exact absurd hgt he
        · exact htl.2 ⟨p, hptl, hgt⟩

/-- Witness for C1: a concrete all-non-terminal trace for the smoke-test
timeout of 10 minutes, whose last iteration starts at 601 seconds elapsed. -/
theorem wait_for_spark_job_timeout_returns_false_witness :
    (∀ p ∈ [((0 : Nat), (Except.ok "RUNNING" : StatusObs)),
            (40, Except.error ()), (601, Except.ok "PENDING")],
        nonTerminalObs p.2 = true) ∧
      wait_for_spark_job 10
        [(0, Except.ok "RUNNING"), (40, Except.error ()), (601, Except.ok "PENDING")] =
        some false := by
  have h : ∀ p ∈ [((0 : Nat), (Except.ok "RUNNING" : StatusObs)),
      (40, Except.error ()), (601, Except.ok "PENDING")], nonTerminalObs p.2 = true := by
    decide
  exact ⟨h, (wait_for_spark_job_timeout_returns_false 10 _ h).2
    ⟨(601, Except.ok "PENDING"),
      List.mem_cons_of_mem _ (List.mem_cons_of_mem _ (List.mem_cons_self _ _)),
      by decide⟩⟩

/-- C5: in an iteration reached within the timeout, `wait_for_spark_job`
returns `True` exactly on status COMPLETED, returns `False` on a status in
the failure set FAILED, CANCELLED, ERROR, and on any other status keeps
polling the rest of the trace. -/
theorem wait_for_spark_job_status_classification (t e : Nat) (s : String)
    (rest : List (Nat × StatusObs)) (h : e ≤ t * 60) :
    (s = "COMPLETED" →
        wait_for_spark_job t ((e, Except.ok s) :: rest) = some true) ∧
      (isFailureStatus s = true →
        wait_for_spark_job t ((e, Except.ok s) :: rest) = some false) ∧
      (¬(s = "COMPLETED") → isFailureStatus s = false →
        wait_for_spark_job t ((e, Except.ok s) :: rest) = wait_for_spark_job t rest) := by
  have he : ¬ e > t * 60 := by omega
  refine ⟨?_, ?_, ?_⟩
  · intro hc
    subst hc
    simp [wait_for_spark_job, he]
  · intro hf
    have hc : ¬(s = "COMPLETED") := by
      intro hc
      subst hc
      simp [isFailureStatus] at hf
    simp [wait_for_spark_job, he, hc, hf]
  · intro hc hf
    simp [wait_for_spark_job, he, hc, hf]

/-- Witness for C5: the three classifications at concrete statuses, within
the 10 minute smoke timeout. -/
theorem wait_for_spark_job_status_classification_witness :
    wait_for_spark_job 10 [((0 : Nat), (Except.ok "COMPLETED" : StatusObs))] = some true ∧
      wait_for_spark_job 10 [(0, Except.ok "FAILED")] = some false ∧
      wait_for_spark_job 10 [(0, Except.ok "RUNNING")] = wait_for_spark_job 10 [] := by
  refine ⟨?_, ?_, ?_⟩
  · exact (wait_for_spark_job_status_classification 10 0 "COMPLETED" [] (by decide)).1 rfl
  · exact (wait_for_spark_job_status_classification 10 0 "FAILED" [] (by decide)).2.1 (by decide)
  · exact (wait_for_spark_job_status_classification 10 0 "RUNNING" [] (by decide)).2.2
      (by decide) (by decide)

/-- C6: a failed status query in an iteration reached within the timeout is
retried: the loop neither raises nor decides on that account, and its result
is whatever the remaining iterations produce. -/
theorem wait_for_spark_job_retries_query_error (t e : Nat) (u : Unit)
    (rest : List (Nat × StatusObs)) (h : e ≤ t * 60) :
    wait_for_spark_job t ((e, Except.error u) :: rest) = wait_for_spark_job t rest := by
  have he : ¬ e > t * 60 := by omega
  simp [wait_for_spark_job, he]

/-- Witness for C6: a query error at 30 seconds elapsed leaves the result to
the later successful COMPLETED observation. -/
theorem wait_for_spark_job_retries_query_error_witness :
    wait_for_spark_job 10 [((30 : Nat), (Except.error () : StatusObs)),
        (60, Except.ok "COMPLETED")] =
      wait_for_spark_job 10 [(60, Except.ok "COMPLETED")] ∧
      wait_for_spark_job 10 [((30 : Nat), (Except.error () : StatusObs)),
        (60, Except.ok "COMPLETED")] = some true := by
  have h := wait_for_spark_job_retries_query_error 10 30 ()
    [(60, Except.ok "COMPLETED")] (by decide)
  exact ⟨h, by rw [h]; decide⟩

/-- C2: for every oracle, a full pipeline run aborts at the first failing
processing stage — it returns `False` and the manifests of all later stages
are never applied — and when all four processing stages succeed, the action
trace is exactly the fixed order smoke, bronze, silver, gold, validate. -/
theorem run_full_pipeline_aborts_on_first_failure (co : CheckOutcome)
    (s b si g v : Bool) :
    ((run_full_pipeline co ⟨false, b, si, g, v⟩).1 = false ∧
      appliesManifest "k8s/spark/42-bronze-ingest.yaml"
        (run_full_pipeline co ⟨false, b, si, g, v⟩).2 = false ∧
      appliesManifest "k8s/spark/43-silver-build.yaml"
        (run_full_pipeline co ⟨false, b, si, g, v⟩).2 = false ∧
      appliesManifest "k8s/spark/44-gold-finalize.yaml"
        (run_full_pipeline co ⟨false, b, si, g, v⟩).2 = false) ∧
    ((run_full_pipeline co ⟨s, false, si, g, v⟩).1 = false ∧
      appliesManifest "k8s/spark/43-silver-build.yaml"
        (run_full_pipeline co ⟨s, false, si, g, v⟩).2 = false ∧
      appliesManifest "k8s/spark/44-gold-finalize.yaml"
        (run_full_pipeline co ⟨s, false, si, g, v⟩).2 = false) ∧
    ((run_full_pipeline co ⟨s, b, false, g, v⟩).1 = false ∧
      appliesManifest "k8s/spark/44-gold-finalize.yaml"
        (run_full_pipeline co ⟨s, b, false, g, v⟩).2 = false) ∧
    ((run_full_pipeline co ⟨s, b, si, false, v⟩).1 = false) ∧
    ((run_full_pipeline co ⟨true, true, true, true, v⟩).2 =
      check_cluster_resources co ++
        [OrchAction.deleteJob "mdp-smoke",
         OrchAction.applyManifest "k8s/spark/49-smoke.yaml",
         OrchAction.waitJob "mdp-smoke" 10,
         OrchAction.deleteJob "mdp-bronze-ingest",
         OrchAction.applyManifest "k8s/spark/42-bronze-ingest.yaml",
         OrchAction.monitorExecutors "mdp-bronze-ingest",
         OrchAction.waitJob "mdp-bronze-ingest" 180,
         OrchAction.fetchDriverLogs "mdp-bronze-ingest",
         OrchAction.deleteJob "mdp-silver-build",
         OrchAction.applyManifest "k8s/spark/43-silver-build.yaml",
         OrchAction.waitJob "mdp-silver-build" 60,
         OrchAction.deleteJob "mdp-gold-finalize",
         OrchAction.applyManifest "k8s/spark/44-gold-finalize.yaml",
         OrchAction.waitJob "mdp-gold-finalize" 30,
         OrchAction.validateQueries]) := by
  cases co <;> cases s <;> cases b <;> cases si <;> cases g <;> cases v <;> decide

/-- C4: when all four processing stages succeed, `run_full_pipeline` returns
`True` whatever `validate_pipeline` returns, and the process exit code of an
uninterrupted run is 0 in either case. -/
theorem run_full_pipeline_validation_is_advisory (co : CheckOutcome) (v : Bool) :
    (run_full_pipeline co ⟨true, true, true, true, v⟩).1 = true ∧
      mainExitCode false RunInterruption.completed
        (run_full_pipeline co ⟨true, true, true, true, v⟩).1 = 0 := by
  cases co <;> cases v <;> decide

/-- Counterexample to C3 as stated: when the underlying delete command fails
for job mdp-smoke in the default namespace, `delete_spark_job` does return
normally, but the transcript contains an error-level line, emitted by
`run_kubectl` before it re-raises — so the claim that no error-level output
is emitted is false. -/
theorem delete_spark_job_emits_error_line :
    ∃ l, delete_spark_job "mdp-smoke" "md-pipeline" (KubeOutcome.err none) = Except.ok l ∧
      logHasError l = true := by
  exact ⟨_, rfl, rfl⟩

/-- C3 (amended): for every job name and namespace, whatever the outcome of
the underlying delete command, `delete_spark_job` returns normally — no
exception propagates to its caller — and when the delete command fails it
logs at info level that the job was not found; however the shared
`run_kubectl` helper has already logged the failure at error level before
raising, so error-level output is emitted. -/
theorem delete_spark_job_never_raises (job_name ns : String) :
    (∀ o, ∃ l, delete_spark_job job_name ns o = Except.ok l) ∧
      (∀ st, ∃ l, delete_spark_job job_name ns (KubeOutcome.err st) = Except.ok l ∧
        (LogLevel.info, "Job " ++ job_name ++ " not found (this is okay)") ∈ l ∧
        logHasError l = true) := by
  constructor
  · intro o
    cases o with
    | ok stdout => exact ⟨_, rfl⟩
    | err st => cases st <;> exact ⟨_, rfl⟩
  · intro st
    cases st with
    | none => exact ⟨_, rfl, by simp [run_kubectl], rfl⟩
    | some s => exact ⟨_, rfl, by simp [run_kubectl], rfl⟩

/-- C7: fetching diagnostic logs is best-effort: for every job name,
namespace and tail length, `show_job_logs` returns normally whatever the
outcomes of the driver-log and executor-log fetches are, and a failed fetch
contributes a warning line to the transcript. -/
theorem show_job_logs_never_raises (job_name ns : String) (tail_lines : Nat) :
    (∀ d e, ∃ l, show_job_logs job_name ns tail_lines d e = Except.ok l) ∧
      (∀ st e, ∃ l, show_job_logs job_name ns tail_lines (KubeOutcome.err st) e =
          Except.ok l ∧
        (LogLevel.warning, "Could not retrieve driver logs") ∈ l) ∧
      (∀ d st, ∃ l, show_job_logs job_name ns tail_lines d (KubeOutcome.err st) =
          Except.ok l ∧
        (LogLevel.warning, "Could not retrieve executor logs") ∈ l) := by
  refine ⟨?_, ?_, ?_⟩
  · intro d e
    cases d <;> cases e <;> exact ⟨_, rfl⟩
  · intro st e
    cases e <;> exact ⟨_, rfl, by simp [run_kubectl]⟩
  · intro d st
    cases d <;> exact ⟨_, rfl, by simp [run_kubectl]⟩

/-- C9: `get_executor_count` is total and non-negative: it returns 0 when the
pod listing fails and 0 on an empty listing, and on success it returns the
number of lines of the stripped output that are non-empty after stripping. -/
theorem get_executor_count_spec (job_name ns : String) :
    (∀ st, get_executor_count job_name ns (KubeOutcome.err st) = 0) ∧
      get_executor_count job_name ns (KubeOutcome.ok "") = 0 ∧
      (∀ stdout, get_executor_count job_name ns (KubeOutcome.ok stdout) =
        ((pySplitLines (pyStrip stdout)).filter
          (fun line => decide (¬ pyStrip line = ""))).length) := by
  refine ⟨fun st => rfl, rfl, ?_⟩
  intro stdout
  have hdef : get_executor_count job_name ns (KubeOutcome.ok stdout) =
      if pyStrip stdout = "" then 0
      else ((pySplitLines (pyStrip stdout)).filter
        (fun line => decide (¬ pyStrip line = ""))).length := rfl
  rw [hdef]
  by_cases h : pyStrip stdout = ""
  · rw [if_pos h, h]
    decide
  · rw [if_neg h]

/-- C8: without the resource-check flag, the process exit code is 0 exactly
when the run completed and the selected stage function returned `True`; it is
1 when the stage function returned `False`, when an unexpected exception
escaped, or on `KeyboardInterrupt` — and 0 and 1 are the only exit codes. -/
theorem mainExitCode_zero_iff_success (intr : RunInterruption) (b : Bool) :
    (mainExitCode false intr b = 0 ↔ intr = RunInterruption.completed ∧ b = true) ∧
      (mainExitCode false intr b = 0 ∨ mainExitCode false intr b = 1) := by
  cases intr <;> cases b <;> decide

/-- C10: with the resource-check flag, `main` only runs the cluster-resource
check and returns with exit code 0, for every stage selection, every resource
check outcome and every oracle; in particular no job resource is deleted and
no manifest is applied. -/
theorem mainRun_check_resources_short_circuits (stage : Stage) (co : CheckOutcome)
    (env : PipelineEnv) :
    mainRun stage true co env = (0, check_cluster_resources co) ∧
      touchesJobResources (mainRun stage true co env).2 = false := by
  refine ⟨rfl, ?_⟩
  cases co <;> rfl
